import Mathlib

/-!
Verification of the face-recognition service's core pipeline.

Shallow embedding of the repository's Python sources:
* `app/services/face_recognition_service.py` (gallery load, distance
  estimation, cosine-similarity matching, threshold update),
* `app/services/liveness_service.py` (liveness score combination and the
  screen-artifact heuristic),
* `app/services/ip_webcam_service.py` (the stream processor's per-frame,
  per-person pipeline: spoof penalty, event cooldown, mobile-device
  enclosure spoof detection, attendance log, and the connect-retry loop).

Machine floats are modelled by `ℚ`; pixel coordinates by `ℤ`; Python dicts
keyed by person id by association lists over `String`.  Model inference
(face detector, embedder, liveness network, YOLO) is kept abstract: the
embedded functions take the inference outputs (similarity lists, raw
liveness scores, image statistics, detection boxes) as inputs, exactly at
the boundary where the source consumes them.
-/

set_option autoImplicit false

namespace FaceRec

/-! ## Python `dict` model (person_id → timestamp maps)

The stream processor keeps `last_event_time`, `spoof_penalty_until` and
`last_attendance_time` as Python dicts keyed by `person_id`.  We model them
as association lists with `get` / set / `del` operations. -/

/-- `d.get(k)`: first value bound to `k`, if any. -/
def lookupT (k : String) : List (String × ℚ) → Option ℚ
  | [] => none
  | (k', v) :: rest => if k' = k then some v else lookupT k rest

/-- `d[k] = v`: replace the binding of `k` if present, else append it. -/
def setT (k : String) (v : ℚ) : List (String × ℚ) → List (String × ℚ)
  | [] => [(k, v)]
  | (k', v') :: rest => if k' = k then (k, v) :: rest else (k', v') :: setT k v rest

/-- `del d[k]`: drop the first binding of `k`. -/
def removeT (k : String) : List (String × ℚ) → List (String × ℚ)
  | [] => []
  | (k', v') :: rest => if k' = k then rest else (k', v') :: removeT k rest

/-! ## `FaceRecognitionService.estimate_distance`

```python
if not bounding_box or len(bounding_box) < 4:
    return None
_, _, width_px, _ = bounding_box
if width_px <= 0:
    return None
return (self.face_real_width_m * self.face_focal_length_px) / float(width_px)
```
wrapped in `try/except` returning `None`.  Note the 4-way unpacking: a box
with more than 4 components raises `ValueError`, which the handler turns
into `None` as well, so only boxes of length exactly 4 reach the formula. -/

/-- Embedding of `FaceRecognitionService.estimate_distance`. -/
def estimate_distance (real_width_m focal_length_px : ℚ) (bounding_box : List ℤ) :
    Option ℚ :=
  match bounding_box with
  | [_, _, width_px, _] =>
      if width_px ≤ 0 then none
      else some (real_width_m * focal_length_px / (width_px : ℚ))
  | _ => none

/-! ## `FaceRecognitionService.update_threshold`

```python
if 0.0 <= new_threshold <= 1.0:
    self.recognition_threshold = new_threshold
    return True
return False
```
Modelled as a state transformer on the scalar threshold: returns the
success flag and the threshold after the call. -/

/-- Embedding of `FaceRecognitionService.update_threshold`: given the current
threshold and the requested one, return (success flag, new threshold). -/
def update_threshold (current new_threshold : ℚ) : Bool × ℚ :=
  if 0 ≤ new_threshold ∧ new_threshold ≤ 1 then (true, new_threshold)
  else (false, current)

/-! ## Cosine-similarity arg-max (`np.argmax` in `identify_person` /
`identify_all_persons`)

Both variants compute
```python
best_idx = np.argmax(similarities)
best_similarity = similarities[best_idx]
```
`np.argmax` returns the index of the FIRST occurrence of the maximum:
the running best is replaced only on a strictly greater value. -/

/-- Fold of `np.argmax`: `best`/`bestIdx` are the running maximum and its
index, `idx` the index of the head of the remaining list. -/
def argmaxAux (best : ℚ) (bestIdx idx : ℕ) : List ℚ → ℕ
  | [] => bestIdx
  | v :: rest =>
      if best < v then argmaxAux v idx (idx + 1) rest
      else argmaxAux best bestIdx (idx + 1) rest

/-- `np.argmax` over the similarity array (`0` on the empty array, which the
source never reaches because it returns early on an empty gallery). -/
def best_match_idx : List ℚ → ℕ
  | [] => 0
  | v :: rest => argmaxAux v 0 1 rest

/-- The gallery-match step shared by `identify_person` and
`identify_all_persons`: pick the arg-max similarity row and accept it iff
`best_similarity >= recognition_threshold`.  Returns
`(person_id, name, confidence, embedding_distance)`. -/
def select_best_match (threshold : ℚ) (person_ids person_names : List String)
    (similarities : List ℚ) : Option (String × String × ℚ × ℚ) :=
  match similarities with
  | [] => none
  | v :: rest =>
      let i := best_match_idx (v :: rest)
      let best := (v :: rest).getD i 0
      if threshold ≤ best then
        some ((person_ids.getD i ""), (person_names.getD i ""), best, 1 - best)
      else none

/-- Single-face variant: `identify_person` matches the first face's
similarity row exactly through `select_best_match`. -/
def identify_person_match (threshold : ℚ) (ids names : List String)
    (sims : List ℚ) : Option (String × String × ℚ × ℚ) :=
  select_best_match threshold ids names sims

/-- Multi-face variant: `identify_all_persons` runs the same match step for
every detected face's similarity row, keeping the accepted ones in order. -/
def identify_all_persons_match (threshold : ℚ) (ids names : List String)
    (simsPerFace : List (List ℚ)) : List (String × String × ℚ × ℚ) :=
  simsPerFace.filterMap (select_best_match threshold ids names)

/-! ## `FaceRecognitionService.load_persons`

The gallery is three parallel instance lists.  `load_persons` mutates them
IN PLACE:
```python
self.person_embeddings.clear()
self.person_ids.clear()
self.person_names.clear()
for person in persons:
    ...
    if isinstance(embedding_data[0], list):
        for emb_list in embedding_data:
            self.person_embeddings.append(embedding)
            self.person_ids.append(person.person_id)
            self.person_names.append(person.name)
    else:
        self.person_embeddings.append(embedding)
        self.person_ids.append(person.person_id)
        self.person_names.append(person.name)
```
Under CPython each single `clear`/`append` is atomic but the thread may be
preempted between any two of them, so a concurrent reader (`identify_*`
running on a stream-processor thread) can observe any prefix of this
mutation sequence.  `load_states` enumerates exactly those observable
intermediate gallery states. -/

/-- The three parallel gallery arrays of `FaceRecognitionService`. -/
structure Gallery where
  person_embeddings : List (List ℚ)
  person_ids : List String
  person_names : List String
deriving DecidableEq, Repr

/-- Decoded `face_embedding` JSON: a plain list of numbers (legacy single
embedding) or a list of lists (multi-image enrollment). -/
inductive EmbJson where
  | single (v : List ℚ)
  | multi (vs : List (List ℚ))
deriving DecidableEq, Repr

/-- An active `Person` row as `load_persons` consumes it. -/
structure PersonRec where
  person_id : String
  name : String
  face_embedding : EmbJson
deriving DecidableEq, Repr

/-- Rows a person contributes: `if not embedding_data: continue`, then one
row per vector in the multi case, one row in the legacy single case. -/
def person_rows (p : PersonRec) : List (String × String × List ℚ) :=
  match p.face_embedding with
  | .single [] => []
  | .single v => [(p.person_id, p.name, v)]
  | .multi vs => vs.map fun v => (p.person_id, p.name, v)

/-- All rows contributed by the active persons, in iteration order. -/
def all_rows (persons : List PersonRec) : List (String × String × List ℚ) :=
  persons.flatMap person_rows

/-- Gallery after the three appends of one row. -/
def append_row (g : Gallery) (r : String × String × List ℚ) : Gallery :=
  { person_embeddings := g.person_embeddings ++ [r.2.2]
    person_ids := g.person_ids ++ [r.1]
    person_names := g.person_names ++ [r.2.1] }

/-- The gallery states observable after each of the three appends of one
row (embedding appended; then id appended; then name appended). -/
def row_states (g : Gallery) (r : String × String × List ℚ) : List Gallery :=
  [{ g with person_embeddings := g.person_embeddings ++ [r.2.2] },
   { g with person_embeddings := g.person_embeddings ++ [r.2.2],
            person_ids := g.person_ids ++ [r.1] },
   append_row g r]

/-- States observable while the row loop appends `rows` starting from `g`. -/
def run_rows (g : Gallery) : List (String × String × List ℚ) → List Gallery
  | [] => []
  | r :: rs => row_states g r ++ run_rows (append_row g r) rs

/-- States observable after each of the three `clear()` calls. -/
def clear_states (g0 : Gallery) : List Gallery :=
  [{ g0 with person_embeddings := [] },
   { g0 with person_embeddings := [], person_ids := [] },
   ⟨[], [], []⟩]

/-- Every gallery state a concurrent reader can observe during
`load_persons` (the pre-call state `g0` itself excluded). -/
def load_states (g0 : Gallery) (persons : List PersonRec) : List Gallery :=
  clear_states g0 ++ run_rows ⟨[], [], []⟩ (all_rows persons)

/-- The gallery state after `load_persons` returns. -/
def load_persons_final (persons : List PersonRec) : Gallery :=
  (all_rows persons).foldl append_row ⟨[], [], []⟩

end FaceRec

namespace Liveness

/-! ## `LivenessService._detect_screen_artifacts`

The heuristic consumes concrete image statistics (FFT energies, grayscale
standard deviation and mean, Canny edge count, Laplacian variance, mean
per-channel standard deviation).  We embed it as a function of those
statistics; for every real image they satisfy
`0 ≤ high_freq_energy ≤ total_energy` (sums of magnitudes over a sub-band
after DC removal vs the whole spectrum), `0 ≤ std_dev`, and
`edge_count ≤ pixel_count`. -/

/-- Image statistics as measured by `_detect_screen_artifacts`. -/
structure ArtifactStats where
  high_freq_energy : ℚ
  total_energy : ℚ
  std_dev : ℚ
  mean_val : ℚ
  edge_count : ℕ
  pixel_count : ℕ
  texture_variance : ℚ
  color_std : ℚ
deriving DecidableEq, Repr

/-- Statistics measured from an actual image satisfy these bounds: the
band energy is part of the total spectrum energy, standard deviations are
nonnegative, and at most every pixel is an edge pixel. -/
def ArtifactStats.Measured (s : ArtifactStats) : Prop :=
  0 ≤ s.high_freq_energy ∧ s.high_freq_energy ≤ s.total_energy ∧
    0 ≤ s.std_dev ∧ s.edge_count ≤ s.pixel_count

instance (s : ArtifactStats) : Decidable s.Measured := by
  unfold ArtifactStats.Measured; infer_instance

/-- Embedding of `LivenessService._detect_screen_artifacts`.  `none` stands
for the degenerate inputs: an empty image (`face_region.size == 0`) or any
internal exception, both of which return `0.0` in the source. -/
def detect_screen_artifacts (stats : Option ArtifactStats) : ℚ :=
  match stats with
  | none => 0
  | some s =>
      let freq_ratio := if 0 < s.total_energy then s.high_freq_energy / s.total_energy else 0
      let uniformity_score := if 0 < s.mean_val then 1 - min (s.std_dev / s.mean_val) 1 else 0
      let edge_density : ℚ := (s.edge_count : ℚ) / (s.pixel_count : ℚ)
      let texture_smoothness : ℚ :=
        if s.texture_variance < 100 then 8/10
        else if s.texture_variance < 300 then 5/10
        else 1/10
      let color_uniformity : ℚ :=
        if s.color_std < 15 then 7/10
        else if s.color_std < 25 then 4/10
        else 1/10
      let artifact_score :=
        min (freq_ratio * 2) 1 * (25/100) +
        uniformity_score * (15/100) +
        min (edge_density * 5) 1 * (15/100) +
        texture_smoothness * (25/100) +
        color_uniformity * (20/100)
      min artifact_score 1

/-- Default `LIVENESS_THRESHOLD` from `config/settings.py`. -/
def LIVENESS_THRESHOLD : ℚ := 7/10

/-- Result record of `LivenessService.check_liveness` on the success path. -/
structure LivenessResult where
  is_live : Bool
  confidence : ℚ
  raw_liveness : ℚ
  screen_artifacts : ℚ
  threshold : ℚ
deriving DecidableEq, Repr

/-- Embedding of the score-combination tail of
`LivenessService.check_liveness` (lines 140–172): given the Megatron raw
liveness confidence and the measured artifact statistics,
```python
if screen_artifacts_score > 0.6 and liveness_confidence < 0.7:
    adjusted_confidence = liveness_confidence * (1.0 - screen_artifacts_score * 0.3)
else:
    adjusted_confidence = liveness_confidence
is_live = adjusted_confidence >= self.threshold
``` -/
def check_liveness_combine (threshold raw_liveness : ℚ)
    (stats : Option ArtifactStats) : LivenessResult :=
  let screen_artifacts_score := detect_screen_artifacts stats
  let adjusted_confidence :=
    if 6/10 < screen_artifacts_score ∧ raw_liveness < 7/10 then
      raw_liveness * (1 - screen_artifacts_score * (3/10))
    else raw_liveness
  { is_live := decide (threshold ≤ adjusted_confidence)
    confidence := adjusted_confidence
    raw_liveness := raw_liveness
    screen_artifacts := screen_artifacts_score
    threshold := threshold }

end Liveness

namespace Webcam

open FaceRec (lookupT setT removeT)

/-! ## `IPWebcamProcessor` — per-frame, per-person pipeline

Embeds `_face_inside_box`, `_should_create_event`,
`_log_recognition_to_file`, and the body of the `for result in results:`
loop of `_process_stream` (lines 525–659), plus the connect-retry outer
loop (lines 388–405).  Observable side effects (database events, snapshot
files, attendance-log lines) are collected in an output list; the mutable
per-processor dicts form the state. -/

/-- Configuration constants the pipeline reads (from `config/settings.py`;
defaults: cooldown 5 s, penalty 900 s, attendance cooldown 5 s,
enclosure ratio 0.85). -/
structure ProcConfig where
  event_cooldown : ℚ
  spoof_penalty_duration : ℚ
  attendance_cooldown : ℚ
  mobile_face_enclosure_ratio : ℚ
deriving DecidableEq, Repr

/-- The default configuration from `config/settings.py`. -/
def defaultConfig : ProcConfig :=
  { event_cooldown := 5
    spoof_penalty_duration := 900
    attendance_cooldown := 5
    mobile_face_enclosure_ratio := 85/100 }

/-- Mutable per-processor dicts (`person_id → timestamp`). -/
structure ProcState where
  last_event_time : List (String × ℚ)
  spoof_penalty_until : List (String × ℚ)
  last_attendance_time : List (String × ℚ)
deriving DecidableEq, Repr

/-- One entry of `identify_all_persons`' result list, with
`return_bbox=True` (so `bounding_box` is always set). -/
structure IdentResult where
  person_id : String
  name : String
  confidence : ℚ
  embedding_distance : ℚ
  bounding_box : List ℤ
deriving DecidableEq, Repr

/-- A `DetectionEvent` row as `_create_detection_event` writes it (fields
the claims mention; the spoofing reason string
`f"Face enclosed by mobile device (overlap={r:.2f})"` is modelled by the
overlap ratio `r` it embeds). -/
structure DetEvent where
  person_id : Option String
  name : Option String
  confidence : Option ℚ
  embedding_distance : Option ℚ
  spoofing_detected : Bool
  spoofing_type : Option String
  spoofing_reason_overlap : Option ℚ
deriving DecidableEq, Repr

/-- Observable side effects of one pipeline pass, in program order. -/
inductive Output where
  | snapshot (category : String) (person_id : Option String)
  | event (e : DetEvent)
  | attendance_line (person_id name : String) (confidence : ℚ)
deriving DecidableEq, Repr

/-- Embedding of `IPWebcamProcessor._face_inside_box`.  A face box is the
`[x, y, w, h]` list produced by `detect_faces`; the mobile box is the
YOLO `(x1, y1, x2, y2)` corner tuple.  (The source also guards
`len(face_box) < 4` with `(False, 0.0)`; a longer list would raise at the
4-way unpacking and is unreachable from `detect_faces` output, modelled by
the catch-all arm.) -/
def face_inside_box (face_box : List ℤ) (mobile_box : ℤ × ℤ × ℤ × ℤ)
    (enclosure_ratio : ℚ) : Bool × ℚ :=
  match face_box with
  | [x, y, w, h] =>
      let fx2 := x + w
      let fy2 := y + h
      let (mx1, my1, mx2, my2) := mobile_box
      let ix1 := max x mx1
      let iy1 := max y my1
      let ix2 := min fx2 mx2
      let iy2 := min fy2 my2
      if ix2 ≤ ix1 ∨ iy2 ≤ iy1 then (false, 0)
      else if w * h ≤ 0 then (false, 0)
      else
        let intersection_area := (ix2 - ix1) * (iy2 - iy1)
        let ratio : ℚ := (intersection_area : ℚ) / ((w * h : ℤ) : ℚ)
        (decide (enclosure_ratio ≤ ratio), ratio)
  | _ => (false, 0)

/-- The scan over detected mobile boxes (lines 579–589): track the running
maximum overlap, and break with `face_in_mobile = True` at the first
enclosing box. -/
def scan_mobile_boxes (face_box : List ℤ) (enclosure_ratio : ℚ)
    (best : ℚ) : List (ℤ × ℤ × ℤ × ℤ) → Bool × ℚ
  | [] => (false, best)
  | b :: bs =>
      let (inside, ratio) := face_inside_box face_box b enclosure_ratio
      let best' := max best ratio
      if inside then (true, best')
      else scan_mobile_boxes face_box enclosure_ratio best' bs

/-- Embedding of `IPWebcamProcessor._should_create_event`: emit iff
`current_time - last_time > event_cooldown` (missing key defaults to `0`),
recording the emission time on success. -/
def should_create_event (cfg : ProcConfig) (st : ProcState) (person_id : String)
    (t : ℚ) : Bool × ProcState :=
  let last_time := (lookupT person_id st.last_event_time).getD 0
  if cfg.event_cooldown < t - last_time then
    (true, { st with last_event_time := setT person_id t st.last_event_time })
  else (false, st)

/-- Embedding of `IPWebcamProcessor._log_recognition_to_file`: skip when
`now - last_log_time < ATTENDANCE_COOLDOWN_SECONDS`, else append a line and
record the time. -/
def log_recognition_to_file (cfg : ProcConfig) (st : ProcState)
    (person_id name : String) (confidence t : ℚ) : ProcState × List Output :=
  let last_log_time := (lookupT person_id st.last_attendance_time).getD 0
  if t - last_log_time < cfg.attendance_cooldown then (st, [])
  else
    ({ st with last_attendance_time := setT person_id t st.last_attendance_time },
     [Output.attendance_line person_id name confidence])

/-- The legitimate-identification tail (lines 628–659): save an
"events"-category snapshot, append the attendance line under its own
cooldown, and create a normal `DetectionEvent`. -/
def emit_legitimate (cfg : ProcConfig) (st : ProcState) (t : ℚ)
    (r : IdentResult) : ProcState × List Output :=
  let logged := log_recognition_to_file cfg st r.person_id r.name r.confidence t
  (logged.1,
   Output.snapshot "events" (some r.person_id) ::
     logged.2 ++
       [Output.event
         { person_id := some r.person_id
           name := some r.name
           confidence := some r.confidence
           embedding_distance := some r.embedding_distance
           spoofing_detected := false
           spoofing_type := none
           spoofing_reason_overlap := none }])

/-- The part of the loop body after the spoof-penalty gate (lines 550–659):
the event cooldown is checked FIRST; only when it passes does the
mobile-enclosure check run, and an enclosure flags the spoof penalty and
emits the spoofing event instead of the normal one. -/
def process_after_penalty (cfg : ProcConfig) (st : ProcState) (t : ℚ)
    (mobile_boxes : List (ℤ × ℤ × ℤ × ℤ)) (r : IdentResult) :
    ProcState × List Output :=
  let gate := should_create_event cfg st r.person_id t
  let st1 := gate.2
  if gate.1 then
    if r.bounding_box ≠ [] ∧ mobile_boxes ≠ [] then
      let scanned :=
        scan_mobile_boxes r.bounding_box cfg.mobile_face_enclosure_ratio 0 mobile_boxes
      if scanned.1 then
        ({ st1 with
            spoof_penalty_until :=
              setT r.person_id (t + cfg.spoof_penalty_duration) st1.spoof_penalty_until },
         [Output.snapshot "spoofing" (some r.person_id),
          Output.event
            { person_id := some r.person_id
              name := some r.name
              confidence := some r.confidence
              embedding_distance := some r.embedding_distance
              spoofing_detected := true
              spoofing_type := some "mobile_display"
              spoofing_reason_overlap := some scanned.2 }])
      else emit_legitimate cfg st1 t r
    else emit_legitimate cfg st1 t r
  else (st1, [])

/-- One `for result in results:` iteration (lines 525–659): the
spoof-penalty gate (`continue` while `current_time < penalty_expires`,
delete the entry once expired), then `process_after_penalty`. -/
def process_result (cfg : ProcConfig) (st : ProcState) (t : ℚ)
    (mobile_boxes : List (ℤ × ℤ × ℤ × ℤ)) (r : IdentResult) :
    ProcState × List Output :=
  match lookupT r.person_id st.spoof_penalty_until with
  | some penalty_expires =>
      if t < penalty_expires then (st, [])
      else
        process_after_penalty cfg
          { st with spoof_penalty_until := removeT r.person_id st.spoof_penalty_until }
          t mobile_boxes r
  | none => process_after_penalty cfg st t mobile_boxes r

/-- The whole result loop of one processed frame. -/
def process_frame_results (cfg : ProcConfig) (st : ProcState) (t : ℚ)
    (mobile_boxes : List (ℤ × ℤ × ℤ × ℤ)) :
    List IdentResult → ProcState × List Output
  | [] => (st, [])
  | r :: rs =>
      let res := process_result cfg st t mobile_boxes r
      let rest := process_frame_results cfg res.1 t mobile_boxes rs
      (rest.1, res.2 ++ rest.2)

/-- A sequence of processed frames: each carries its wall-clock time, the
mobile boxes YOLO returned, and the identification results. -/
def run_frames (cfg : ProcConfig) (st : ProcState) :
    List (ℚ × List (ℤ × ℤ × ℤ × ℤ) × List IdentResult) → ProcState × List Output
  | [] => (st, [])
  | (t, boxes, results) :: fs =>
      let frame := process_frame_results cfg st t boxes results
      let rest := run_frames cfg frame.1 fs
      (rest.1, frame.2 ++ rest.2)

/-- Number of `DetectionEvent` rows created for `person_id`. -/
def count_events_for (person_id : String) (outs : List Output) : ℕ :=
  (outs.filter fun o =>
    match o with
    | Output.event e => e.person_id == some person_id
    | _ => false).length

/-- Number of spoofing `DetectionEvent` rows created for `person_id`. -/
def count_spoof_events_for (person_id : String) (outs : List Output) : ℕ :=
  (outs.filter fun o =>
    match o with
    | Output.event e => e.person_id == some person_id && e.spoofing_detected
    | _ => false).length

/-! ## Connect-retry loop (`_process_stream` lines 382–411)

```python
connection_attempts = 0
max_attempts = 3
while self.is_running:
    if not self._connect_camera():
        connection_attempts += 1
        if connection_attempts >= max_attempts:
            logger.error("Failed to connect after 3 attempts. Stopping processor.")
            break
        time.sleep(STREAM_RECONNECT_DELAY)
        continue
    ...
```
Nothing in this path ever assigns `self.is_running = False`; only an
external `stop()` call does.  `connect_loop` consumes a trace of
`_connect_camera` outcomes until the loop connects, breaks out, or the
trace ends. -/

/-- `max_attempts` in `_process_stream`. -/
def max_attempts : ℕ := 3

/-- Exit summary of the connect-retry phase: how many `_connect_camera`
calls were made, whether the loop broke out via the attempt ceiling,
whether it reached the streaming phase, and the `is_running` flag at
exit. -/
structure ConnectExit where
  attempts_made : ℕ
  gave_up : Bool
  connected : Bool
  is_running : Bool
deriving DecidableEq, Repr

/-- The connect-retry loop over a trace of `_connect_camera` outcomes.
`is_running` is only read, never written, by this loop; an exhausted
trace ends the model run with the counters as they stand. -/
def connect_loop (is_running : Bool) (connection_attempts attempts_made : ℕ) :
    List Bool → ConnectExit
  | [] => ⟨attempts_made, false, false, is_running⟩
  | ok :: rest =>
      if ¬ is_running then ⟨attempts_made, false, false, is_running⟩
      else if ok then ⟨attempts_made + 1, false, true, is_running⟩
      else
        let attempts' := connection_attempts + 1
        if max_attempts ≤ attempts' then ⟨attempts_made + 1, true, false, is_running⟩
        else connect_loop is_running attempts' (attempts_made + 1) rest

/-- Embedding of the retry phase of `IPWebcamProcessor._process_stream`. -/
def process_stream_connect (is_running : Bool) (outcomes : List Bool) : ConnectExit :=
  connect_loop is_running 0 0 outcomes

/-- The per-processor entry of `IPWebcamManager.get_status`: its `running`
field is the processor's `is_running` flag, unchanged. -/
def get_status_running (exit_state : ConnectExit) : Bool :=
  exit_state.is_running

end Webcam

/-! ## Helper lemmas -/

namespace FaceRec

theorem lookupT_setT_self (k : String) (v : ℚ) (l : List (String × ℚ)) :
    lookupT k (setT k v l) = some v := by
  induction l with
  | nil => simp [setT, lookupT]
  | cons hd tl ih =>
      obtain ⟨k', v'⟩ := hd
      by_cases h : k' = k
      · simp [setT, lookupT, h]
      · simp [setT, lookupT, h, ih]

theorem run_rows_ne_nil (g : Gallery) (rows : List (String × String × List ℚ))
    (h : rows ≠ []) : run_rows g rows ≠ [] := by
  cases rows with
  | nil => exact absurd rfl h
  | cons r rs => simp [run_rows, row_states]

/-- `load_persons_final` after the whole row loop, as a fold from any start. -/
theorem run_rows_getLast (g : Gallery) (rows : List (String × String × List ℚ))
    (h : rows ≠ []) :
    (run_rows g rows).getLast? = some (rows.foldl append_row g) := by
  induction rows generalizing g with
  | nil => exact absurd rfl h
  | cons r rs ih =>
      by_cases hrs : rs = []
      · subst hrs
        simp [run_rows, row_states]
      · rw [run_rows,
          List.getLast?_append_of_ne_nil _ (run_rows_ne_nil (append_row g r) rs hrs),
          List.foldl_cons]
        exact ih (append_row g r) hrs

/-- The last observable state of a `load_persons` run is the rebuilt
snapshot, regardless of the pre-call gallery. -/
theorem load_states_getLast (g0 : Gallery) (persons : List PersonRec) :
    (load_states g0 persons).getLast? = some (load_persons_final persons) := by
  by_cases h : all_rows persons = []
  · simp [load_states, h, run_rows, clear_states, load_persons_final]
  · rw [load_states, List.getLast?_append_of_ne_nil _ (run_rows_ne_nil _ _ h),
      run_rows_getLast _ _ h]
    rfl

theorem append_row_lengths (g : Gallery) (r : String × String × List ℚ)
    (h1 : g.person_ids.length = g.person_embeddings.length)
    (h2 : g.person_names.length = g.person_embeddings.length) :
    (append_row g r).person_ids.length = (append_row g r).person_embeddings.length ∧
      (append_row g r).person_names.length = (append_row g r).person_embeddings.length := by
  simp [append_row, h1, h2]

theorem foldl_append_row_lengths (rows : List (String × String × List ℚ)) :
    ∀ g : Gallery,
      g.person_ids.length = g.person_embeddings.length →
      g.person_names.length = g.person_embeddings.length →
      (rows.foldl append_row g).person_ids.length =
          (rows.foldl append_row g).person_embeddings.length ∧
        (rows.foldl append_row g).person_names.length =
          (rows.foldl append_row g).person_embeddings.length := by
  induction rows with
  | nil => intro g h1 h2; exact ⟨h1, h2⟩
  | cons r rs ih =>
      intro g h1 h2
      obtain ⟨h1', h2'⟩ := append_row_lengths g r h1 h2
      simpa [List.foldl_cons] using ih (append_row g r) h1' h2'

/-- Invariant of the `np.argmax` fold: the result is either the running
best index (nothing in the tail beats `best` strictly) or the absolute
position of the first element of `l` that is strictly above `best` and a
maximum of `l`, with everything before it strictly below it. -/
theorem argmaxAux_spec (l : List ℚ) :
    ∀ (best : ℚ) (bestIdx idx : ℕ),
      (argmaxAux best bestIdx idx l = bestIdx ∧
        ∀ q, q < l.length → l.getD q 0 ≤ best) ∨
      (∃ p, p < l.length ∧ argmaxAux best bestIdx idx l = idx + p ∧
        best < l.getD p 0 ∧ (∀ q, q < l.length → l.getD q 0 ≤ l.getD p 0) ∧
        (∀ q, q < p → l.getD q 0 < l.getD p 0)) := by
  induction l with
  | nil =>
      intro best bestIdx idx
      left
      exact ⟨rfl, fun q hq => absurd hq (by simp)⟩
  | cons x xs ih =>
      intro best bestIdx idx
      simp only [argmaxAux]
      by_cases hx : best < x
      · rw [if_pos hx]
        rcases ih x idx (idx + 1) with ⟨heq, hall⟩ | ⟨p, hp, heq, hlt, hmax, hmin⟩
        · right
          refine ⟨0, by simp, by simp [heq], by simpa using hx, ?_, ?_⟩
          · intro q hq
            cases q with
            | zero => simp
            | succ q' =>
                simp only [List.getD_cons_succ, List.getD_cons_zero]
                exact hall q' (by simpa using Nat.lt_of_succ_lt_succ hq)
          · intro q hq; omega
        · right
          refine ⟨p + 1, by simpa using Nat.succ_lt_succ hp, by omega,
            by simpa using lt_trans hx hlt, ?_, ?_⟩
          · intro q hq
            cases q with
            | zero => simpa using le_of_lt hlt
            | succ q' =>
                simp only [List.getD_cons_succ]
                exact hmax q' (by simpa using Nat.lt_of_succ_lt_succ hq)
          · intro q hq
            cases q with
            | zero => simpa using hlt
            | succ q' =>
                simp only [List.getD_cons_succ]
                exact hmin q' (Nat.lt_of_succ_lt_succ hq)
      · rw [if_neg hx]
        have hxb : x ≤ best := le_of_not_lt hx
        rcases ih best bestIdx (idx + 1) with ⟨heq, hall⟩ | ⟨p, hp, heq, hlt, hmax, hmin⟩
        · left
          refine ⟨heq, ?_⟩
          intro q hq
          cases q with
          | zero => simpa using hxb
          | succ q' =>
              simp only [List.getD_cons_succ]
              exact hall q' (by simpa using Nat.lt_of_succ_lt_succ hq)
        · right
          refine ⟨p + 1, by simpa using Nat.succ_lt_succ hp, by omega,
            by simpa using hlt, ?_, ?_⟩
          · intro q hq
            cases q with
            | zero => simpa using le_of_lt (lt_of_le_of_lt hxb hlt)
            | succ q' =>
                simp only [List.getD_cons_succ]
                exact hmax q' (by simpa using Nat.lt_of_succ_lt_succ hq)
          · intro q hq
            cases q with
            | zero => simpa using lt_of_le_of_lt hxb hlt
            | succ q' =>
                simp only [List.getD_cons_succ]
                exact hmin q' (Nat.lt_of_succ_lt_succ hq)

/-- `np.argmax` returns an in-range index that attains the maximum, with
everything strictly before it strictly smaller (first-occurrence
semantics). -/
theorem best_match_idx_spec (sims : List ℚ) (h : sims ≠ []) :
    best_match_idx sims < sims.length ∧
      (∀ q, q < sims.length → sims.getD q 0 ≤ sims.getD (best_match_idx sims) 0) ∧
      (∀ q, q < best_match_idx sims → sims.getD q 0 < sims.getD (best_match_idx sims) 0) := by
  cases sims with
  | nil => exact absurd rfl h
  | cons v rest =>
      have hbm : best_match_idx (v :: rest) = argmaxAux v 0 1 rest := rfl
      rcases argmaxAux_spec rest v 0 1 with ⟨heq, hall⟩ | ⟨p, hp, heq, hlt, hmax, hmin⟩
      · rw [hbm, heq]
        refine ⟨by simp, ?_, ?_⟩
        · intro q hq
          cases q with
          | zero => simp
          | succ q' =>
              simp only [List.getD_cons_succ, List.getD_cons_zero]
              exact hall q' (by simpa using Nat.lt_of_succ_lt_succ hq)
        · intro q hq; omega
      · rw [hbm, heq]
        have h1p : 1 + p = p + 1 := by omega
        rw [h1p]
        refine ⟨by simpa using Nat.succ_lt_succ hp, ?_, ?_⟩
        · intro q hq
          cases q with
          | zero => simpa using le_of_lt hlt
          | succ q' =>
              simp only [List.getD_cons_succ]
              exact hmax q' (by simpa using Nat.lt_of_succ_lt_succ hq)
        · intro q hq
          cases q with
          | zero => simpa using hlt
          | succ q' =>
              simp only [List.getD_cons_succ]
              exact hmin q' (Nat.lt_of_succ_lt_succ hq)

end FaceRec

/-! ## Claim theorems -/

/-- Claim C4, counterexample: gallery reload is NOT atomic from a reader's
perspective.  With one enrolled row and one person to load, the state right
after `self.person_embeddings.clear()` — observable by a concurrent
`identify` call, since the reload mutates the shared lists in place — has
`person_ids` of length 1 but `person_embeddings` of length 0, and is
neither the fully-old nor the fully-new snapshot. -/
theorem C4_load_atomicity_counterexample :
    let g0 : FaceRec.Gallery := ⟨[[1]], ["P0"], ["Old"]⟩
    let ps : List FaceRec.PersonRec := [⟨"P1", "Alice", .single [2]⟩]
    let observed : FaceRec.Gallery := ⟨[], ["P0"], ["Old"]⟩
    observed ∈ FaceRec.load_states g0 ps ∧
      observed.person_ids.length = 1 ∧
      observed.person_embeddings.length = 0 ∧
      observed ≠ g0 ∧
      observed ≠ FaceRec.load_persons_final ps := by
  refine ⟨?_, rfl, rfl, by decide, by decide⟩
  simp [FaceRec.load_states, FaceRec.clear_states]

/-- Claim C4, amended: `load_persons` clears and repopulates the three
parallel arrays in place, so a concurrent reader may observe
mismatched-length intermediate states; only the COMPLETED reload restores
the invariant `len(ids) = len(names) = len(embeddings)`, and the final
snapshot is determined by the person records alone (independent of the
pre-call gallery). -/
theorem C4_load_final_balanced (g0 : FaceRec.Gallery)
    (persons : List FaceRec.PersonRec) :
    (FaceRec.load_states g0 persons).getLast? =
        some (FaceRec.load_persons_final persons) ∧
      (FaceRec.load_persons_final persons).person_ids.length =
        (FaceRec.load_persons_final persons).person_embeddings.length ∧
      (FaceRec.load_persons_final persons).person_names.length =
        (FaceRec.load_persons_final persons).person_embeddings.length := by
  refine ⟨FaceRec.load_states_getLast g0 persons, ?_⟩
  simpa [FaceRec.load_persons_final] using
    FaceRec.foldl_append_row_lengths (FaceRec.all_rows persons) ⟨[], [], []⟩ rfl rfl

/-- Claim C5: on three consecutive `_connect_camera` failures the
processing loop breaks out ("Stopping processor."), makes no further
connection attempts (only 3 of the 5 available outcomes are consumed) —
but `is_running` is never set to `False` on this path, so
`IPWebcamManager.get_status` still reports the processor as running.  The
claim's "the processor is no longer running" contradicts the code. -/
theorem C5_retry_exhaustion_keeps_running_flag :
    (Webcam.process_stream_connect true
        [false, false, false, false, false]).attempts_made = 3 ∧
      (Webcam.process_stream_connect true
        [false, false, false, false, false]).gave_up = true ∧
      (Webcam.process_stream_connect true
        [false, false, false, false, false]).connected = false ∧
      (Webcam.process_stream_connect true
        [false, false, false, false, false]).is_running = true ∧
      Webcam.get_status_running
        (Webcam.process_stream_connect true
          [false, false, false, false, false]) = true := by
  decide

/-- Claim C7: when the cosine-similarity arg-max over the gallery rows is
attained at index `i` (in particular when a later row `j` ties with it),
the selected index is at most `i` and still attains the maximum — first-max
semantics — and the multi-face variant `identify_all_persons` selects rows
through exactly the same `select_best_match` step as the single-face
`identify_person`. -/
theorem C7_argmax_first_max (sims : List ℚ) (i j : ℕ) (hij : i < j)
    (hj : j < sims.length)
    (hmax : ∀ k, k < sims.length → sims.getD k 0 ≤ sims.getD i 0)
    (htie : sims.getD i 0 = sims.getD j 0) :
    FaceRec.best_match_idx sims ≤ i ∧
      sims.getD (FaceRec.best_match_idx sims) 0 = sims.getD i 0 ∧
      sims.getD (FaceRec.best_match_idx sims) 0 = sims.getD j 0 ∧
      ∀ (threshold : ℚ) (ids names : List String),
        FaceRec.identify_all_persons_match threshold ids names [sims] =
          (FaceRec.identify_person_match threshold ids names sims).toList := by
  have hne : sims ≠ [] := by
    intro h
    rw [h] at hj
    exact absurd hj (by simp)
  obtain ⟨hb, hmaxb, hminb⟩ := FaceRec.best_match_idx_spec sims hne
  have hle : FaceRec.best_match_idx sims ≤ i := by
    by_contra hgt
    push_neg at hgt
    exact absurd (hmax (FaceRec.best_match_idx sims) hb)
      (not_le_of_lt (hminb i hgt))
  have hval : sims.getD (FaceRec.best_match_idx sims) 0 = sims.getD i 0 :=
    le_antisymm (hmax _ hb) (hmaxb i (lt_trans hij hj))
  refine ⟨hle, hval, hval.trans htie, ?_⟩
  intro threshold ids names
  simp only [FaceRec.identify_all_persons_match, FaceRec.identify_person_match,
    List.filterMap]
  cases FaceRec.select_best_match threshold ids names sims <;> rfl

/-- Claim C7 witness: on the tied array `[1/2, 3/4, 3/4]` (max attained at
indices 1 and 2) the selected index is 1, the lower one. -/
theorem C7_argmax_first_max_witness :
    FaceRec.best_match_idx [1/2, 3/4, 3/4] ≤ 1 ∧
      List.getD ([1/2, 3/4, 3/4] : List ℚ) (FaceRec.best_match_idx [1/2, 3/4, 3/4]) 0 =
        List.getD ([1/2, 3/4, 3/4] : List ℚ) 1 0 ∧
      List.getD ([1/2, 3/4, 3/4] : List ℚ) (FaceRec.best_match_idx [1/2, 3/4, 3/4]) 0 =
        List.getD ([1/2, 3/4, 3/4] : List ℚ) 2 0 ∧
      ∀ (threshold : ℚ) (ids names : List String),
        FaceRec.identify_all_persons_match threshold ids names [[1/2, 3/4, 3/4]] =
          (FaceRec.identify_person_match threshold ids names [1/2, 3/4, 3/4]).toList :=
  C7_argmax_first_max [1/2, 3/4, 3/4] 1 2 (by norm_num) (by simp)
    (by intro k hk; simp at hk; interval_cases k <;> norm_num) (by norm_num)

/-- Claim C9, counterexample: the claim promises the distance formula for
every bounding box with positive width and `none` only for width ≤ 0 or
fewer than 4 components; but a FIVE-component box with positive width also
yields `none` (the source's 4-way unpacking raises `ValueError`, which the
`except` handler converts to `None`). -/
theorem C9_estimate_distance_counterexample :
    FaceRec.estimate_distance (4/25) 1900 [0, 0, 10, 10, 0] = none ∧
      (0 : ℤ) < 10 ∧
      FaceRec.estimate_distance (4/25) 1900 [0, 0, 10, 10, 0] ≠
        some ((4/25) * 1900 / ((10 : ℤ) : ℚ)) := by
  refine ⟨rfl, by decide, ?_⟩
  intro h
  simp [FaceRec.estimate_distance] at h

/-- Claim C9, amended: for a bounding box with EXACTLY 4 components,
`estimate_distance` returns `(real_face_width_m × focal_length_px) /
box_width_px` when the width is positive and `none` when it is ≤ 0; every
box whose length differs from 4 (fewer AND more) yields `none`; and for
fixed positive constants the returned distance is strictly decreasing in
the box width. -/
theorem C9_estimate_distance_spec (real_width_m focal_length_px : ℚ)
    (hw : 0 < real_width_m) (hf : 0 < focal_length_px) :
    (∀ x y h w : ℤ, 0 < w →
        FaceRec.estimate_distance real_width_m focal_length_px [x, y, w, h] =
          some (real_width_m * focal_length_px / (w : ℚ))) ∧
      (∀ x y h w : ℤ, w ≤ 0 →
        FaceRec.estimate_distance real_width_m focal_length_px [x, y, w, h] = none) ∧
      (∀ bbox : List ℤ, bbox.length ≠ 4 →
        FaceRec.estimate_distance real_width_m focal_length_px bbox = none) ∧
      (∀ w₁ w₂ : ℤ, 0 < w₁ → w₁ < w₂ →
        real_width_m * focal_length_px / ((w₂ : ℤ) : ℚ) <
          real_width_m * focal_length_px / ((w₁ : ℤ) : ℚ)) := by
  refine ⟨?_, ?_, ?_, ?_⟩
  · intro x y h w hpos
    simp [FaceRec.estimate_distance, not_le_of_lt hpos]
  · intro x y h w hnp
    simp [FaceRec.estimate_distance, hnp]
  · intro bbox hlen
    rcases bbox with _ | ⟨a, _ | ⟨b, _ | ⟨c, _ | ⟨d, _ | ⟨e, rest⟩⟩⟩⟩⟩ <;>
      first
        | rfl
        | exact absurd rfl hlen
  · intro w₁ w₂ h1 h2
    have hq1 : (0 : ℚ) < (w₁ : ℚ) := by exact_mod_cast h1
    have hq2 : ((w₁ : ℤ) : ℚ) < ((w₂ : ℤ) : ℚ) := by exact_mod_cast h2
    exact div_lt_div_of_pos_left (by positivity) hq1 hq2

/-- Claim C9 witness: at the source defaults (`FACE_REAL_WIDTH_M = 0.16`,
`FACE_FOCAL_LENGTH_PX = 1900`) a `[0, 0, 10, 10]` box yields 30.4 m and the
formula value at width 20 is below the one at width 10. -/
theorem C9_estimate_distance_spec_witness :
    FaceRec.estimate_distance (4/25) 1900 [0, 0, 10, 10] =
        some ((4/25) * 1900 / ((10 : ℤ) : ℚ)) ∧
      (4/25 : ℚ) * 1900 / ((20 : ℤ) : ℚ) < (4/25) * 1900 / ((10 : ℤ) : ℚ) :=
  ⟨(C9_estimate_distance_spec (4/25) 1900 (by norm_num) (by norm_num)).1
      0 0 10 10 (by decide),
    (C9_estimate_distance_spec (4/25) 1900 (by norm_num) (by norm_num)).2.2.2
      10 20 (by decide) (by decide)⟩

/-- Claim C10: `update_threshold(t)` succeeds and installs `t` exactly when
`0.0 ≤ t ≤ 1.0` (both bounds inclusive); outside that range it returns
`False` and leaves the recognition threshold unchanged. -/
theorem C10_update_threshold_spec (current t : ℚ) :
    ((FaceRec.update_threshold current t).1 = true ↔ 0 ≤ t ∧ t ≤ 1) ∧
      (0 ≤ t ∧ t ≤ 1 → FaceRec.update_threshold current t = (true, t)) ∧
      (¬(0 ≤ t ∧ t ≤ 1) → FaceRec.update_threshold current t = (false, current)) := by
  unfold FaceRec.update_threshold
  split_ifs with h <;> simp_all

/-- Statistics hypothesis usable on the optional input of
`detect_screen_artifacts`: trivial on the degenerate (`none`) input. -/
def MeasuredOpt : Option Liveness.ArtifactStats → Prop
  | none => True
  | some s => s.Measured

instance (stats : Option Liveness.ArtifactStats) : Decidable (MeasuredOpt stats) := by
  cases stats <;> (unfold MeasuredOpt; infer_instance)

theorem min_one_bounds (x : ℚ) (hx : 0 ≤ x) : 0 ≤ min x 1 ∧ min x 1 ≤ 1 :=
  ⟨le_min hx zero_le_one, min_le_right _ _⟩

theorem one_sub_min_one_bounds (x : ℚ) (hx : 0 ≤ x) :
    0 ≤ 1 - min x 1 ∧ 1 - min x 1 ≤ 1 :=
  ⟨by simp, by simpa using le_min hx zero_le_one⟩

/-- Claim C8: the screen-artifact heuristic returns a score in `[0, 1]` for
every input image — uniform, noisy, or degenerate (empty image / internal
exception, the `none` input, which yields 0) — because the five weighted
sub-scores each lie in `[0, 1]`, their weights sum to 1, and the result is
additionally clamped by `min(score, 1)`. -/
theorem C8_screen_artifacts_bounded (stats : Option Liveness.ArtifactStats)
    (hm : MeasuredOpt stats) :
    0 ≤ Liveness.detect_screen_artifacts stats ∧
      Liveness.detect_screen_artifacts stats ≤ 1 := by
  cases stats with
  | none => exact ⟨le_refl 0, by norm_num [Liveness.detect_screen_artifacts]⟩
  | some s =>
      obtain ⟨hh, _, hstd, _⟩ := hm
      simp only [Liveness.detect_screen_artifacts]
      have hfr : 0 ≤ if 0 < s.total_energy then s.high_freq_energy / s.total_energy else 0 := by
        split_ifs with h
        · exact div_nonneg hh h.le
        · exact le_refl 0
      obtain ⟨ha0, ha1⟩ :=
        min_one_bounds ((if 0 < s.total_energy then s.high_freq_energy / s.total_energy else 0) * 2)
          (by positivity)
      have hb01 :
          (0 ≤ if 0 < s.mean_val then 1 - min (s.std_dev / s.mean_val) 1 else 0) ∧
            (if 0 < s.mean_val then 1 - min (s.std_dev / s.mean_val) 1 else 0) ≤ 1 := by
        split_ifs with h
        · exact one_sub_min_one_bounds _ (div_nonneg hstd h.le)
        · exact ⟨le_refl 0, zero_le_one⟩
      obtain ⟨hb0, hb1⟩ := hb01
      obtain ⟨hc0, hc1⟩ :=
        min_one_bounds ((s.edge_count : ℚ) / (s.pixel_count : ℚ) * 5) (by positivity)
      have hd01 :
          (0 ≤ if s.texture_variance < 100 then (8 : ℚ)/10
              else if s.texture_variance < 300 then 5/10 else 1/10) ∧
            (if s.texture_variance < 100 then (8 : ℚ)/10
              else if s.texture_variance < 300 then 5/10 else 1/10) ≤ 1 := by
        split_ifs <;> norm_num
      obtain ⟨hd0, hd1⟩ := hd01
      have he01 :
          (0 ≤ if s.color_std < 15 then (7 : ℚ)/10
              else if s.color_std < 25 then 4/10 else 1/10) ∧
            (if s.color_std < 15 then (7 : ℚ)/10
              else if s.color_std < 25 then 4/10 else 1/10) ≤ 1 := by
        split_ifs <;> norm_num
      obtain ⟨he0, he1⟩ := he01
      constructor
      · exact le_min (by nlinarith) zero_le_one
      · exact min_le_right _ _

/-- Claim C8 witness: a fully measured statistics record (band energy 3 of
total 10, std-dev 20, mean 100, 30 edge pixels of 1000, Laplacian variance
250, mean channel std-dev 18) gets a score inside `[0, 1]`. -/
theorem C8_screen_artifacts_bounded_witness :
    0 ≤ Liveness.detect_screen_artifacts (some ⟨3, 10, 20, 100, 30, 1000, 250, 18⟩) ∧
      Liveness.detect_screen_artifacts (some ⟨3, 10, 20, 100, 30, 1000, 250, 18⟩) ≤ 1 :=
  C8_screen_artifacts_bounded (some ⟨3, 10, 20, 100, 30, 1000, 250, 18⟩)
    (by constructor <;> norm_num)

/-- Claim C6: on every frame where the liveness pipeline produced a raw
liveness confidence and a screen-artifact score, the adjusted confidence is
`raw × (1 − artifacts × 0.3)` exactly in the branch
`artifacts > 0.6 ∧ raw < 0.7` and `raw` otherwise, and `is_live` holds iff
the adjusted confidence reaches the threshold (default
`LIVENESS_THRESHOLD = 0.7`). -/
theorem C6_liveness_combination (threshold raw : ℚ)
    (stats : Option Liveness.ArtifactStats) :
    let res := Liveness.check_liveness_combine threshold raw stats
    res.raw_liveness = raw ∧
      res.screen_artifacts = Liveness.detect_screen_artifacts stats ∧
      (6/10 < res.screen_artifacts ∧ raw < 7/10 →
        res.confidence = raw * (1 - res.screen_artifacts * (3/10))) ∧
      (¬(6/10 < res.screen_artifacts ∧ raw < 7/10) → res.confidence = raw) ∧
      (res.is_live = true ↔ threshold ≤ res.confidence) ∧
      Liveness.LIVENESS_THRESHOLD = 7/10 := by
  dsimp only [Liveness.check_liveness_combine]
  refine ⟨rfl, rfl, ?_, ?_, by simp, rfl⟩
  · intro h
    rw [if_pos h]
  · intro h
    rw [if_neg h]

/-- Claim C6 witness: with raw liveness 0.5 and an artifact score of 0.74
(band energy = total, flat mean 0, all pixels edges, low variance, low
channel spread) the penalized branch fires: the adjusted confidence is
`0.5 × (1 − 0.74 × 0.3) = 0.389`, below the default 0.7 threshold; with no
artifacts the confidence stays the raw 0.5. -/
theorem C6_liveness_combination_witness :
    (Liveness.check_liveness_combine (7/10) (1/2)
        (some ⟨10, 10, 0, 0, 100, 100, 0, 0⟩)).confidence =
      (1/2) * (1 - (Liveness.check_liveness_combine (7/10) (1/2)
        (some ⟨10, 10, 0, 0, 100, 100, 0, 0⟩)).screen_artifacts * (3/10)) ∧
      (Liveness.check_liveness_combine (7/10) (1/2) none).confidence = 1/2 :=
  ⟨(C6_liveness_combination (7/10) (1/2) (some ⟨10, 10, 0, 0, 100, 100, 0, 0⟩)).2.2.1
      (by norm_num [Liveness.check_liveness_combine,
        Liveness.detect_screen_artifacts, min_def]),
    (C6_liveness_combination (7/10) (1/2) none).2.2.2.1
      (by norm_num [Liveness.check_liveness_combine,
        Liveness.detect_screen_artifacts])⟩

/-- Claim C10 witness: `update_threshold(2.0)` from a current threshold of
0.5 fails and keeps 0.5; `update_threshold(0.3)` succeeds and installs
0.3 (bounds 0 and 1 themselves are accepted). -/
theorem C10_update_threshold_spec_witness :
    FaceRec.update_threshold (1/2) 2 = (false, 1/2) ∧
      FaceRec.update_threshold (1/2) (3/10) = (true, 3/10) ∧
      FaceRec.update_threshold (1/2) 0 = (true, 0) ∧
      FaceRec.update_threshold (1/2) 1 = (true, 1) :=
  ⟨(C10_update_threshold_spec (1/2) 2).2.2 (by norm_num),
    (C10_update_threshold_spec (1/2) (3/10)).2.1 (by norm_num),
    (C10_update_threshold_spec (1/2) 0).2.1 (by norm_num),
    (C10_update_threshold_spec (1/2) 1).2.1 (by norm_num)⟩

namespace Webcam

open FaceRec (lookupT setT removeT lookupT_setT_self)

/-- The legitimate-emission tail touches only `last_attendance_time` and
produces exactly one (non-spoofing) `DetectionEvent` for the person. -/
theorem emit_legitimate_spec (cfg : ProcConfig) (st : ProcState) (t : ℚ)
    (r : IdentResult) :
    (emit_legitimate cfg st t r).1.last_event_time = st.last_event_time ∧
      (emit_legitimate cfg st t r).1.spoof_penalty_until = st.spoof_penalty_until ∧
      count_events_for r.person_id (emit_legitimate cfg st t r).2 = 1 ∧
      count_spoof_events_for r.person_id (emit_legitimate cfg st t r).2 = 0 := by
  unfold emit_legitimate log_recognition_to_file
  dsimp only
  by_cases h : t - (lookupT r.person_id st.last_attendance_time).getD 0 <
      cfg.attendance_cooldown
  · rw [if_pos h]
    simp [count_events_for, count_spoof_events_for]
  · rw [if_neg h]
    simp [count_events_for, count_spoof_events_for]

/-- Cooldown not yet elapsed: the loop `continue`s with no output and no
state change (`_should_create_event` leaves the dict untouched on the
`False` branch). -/
theorem process_after_penalty_cooldown (cfg : ProcConfig) (st : ProcState)
    (t : ℚ) (boxes : List (ℤ × ℤ × ℤ × ℤ)) (r : IdentResult)
    (hcool : ¬ cfg.event_cooldown <
      t - (lookupT r.person_id st.last_event_time).getD 0) :
    process_after_penalty cfg st t boxes r = (st, []) := by
  unfold process_after_penalty should_create_event
  rw [if_neg hcool]
  rfl

/-- Cooldown elapsed and the face not enclosed by any device box: the
legitimate tail runs on the state with the refreshed `last_event_time`. -/
theorem process_after_penalty_legit (cfg : ProcConfig) (st : ProcState)
    (t : ℚ) (boxes : List (ℤ × ℤ × ℤ × ℤ)) (r : IdentResult)
    (hcool : cfg.event_cooldown <
      t - (lookupT r.person_id st.last_event_time).getD 0)
    (hscan : (scan_mobile_boxes r.bounding_box cfg.mobile_face_enclosure_ratio
      0 boxes).1 = false) :
    process_after_penalty cfg st t boxes r =
      emit_legitimate cfg
        { st with last_event_time := setT r.person_id t st.last_event_time } t r := by
  unfold process_after_penalty should_create_event
  rcases hs : scan_mobile_boxes r.bounding_box cfg.mobile_face_enclosure_ratio
      0 boxes with ⟨fim, best⟩
  rw [hs] at hscan
  simp only at hscan
  subst hscan
  by_cases h : r.bounding_box ≠ [] ∧ boxes ≠ []
  · simp [hcool, hs, h]
  · simp [hcool, h]

/-- Cooldown elapsed and the face enclosed by a device box with running-max
overlap `ρ`: the spoof penalty is set to `t + spoof_penalty_duration`, a
"spoofing"-category snapshot is saved, a spoofing `DetectionEvent` with
`spoofing_type="mobile_display"` and the overlap `ρ` in its reason is
created, and NO normal event/snapshot/attendance line is produced. -/
theorem process_after_penalty_spoof (cfg : ProcConfig) (st : ProcState)
    (t ρ : ℚ) (boxes : List (ℤ × ℤ × ℤ × ℤ)) (r : IdentResult)
    (hcool : cfg.event_cooldown <
      t - (lookupT r.person_id st.last_event_time).getD 0)
    (hbb : r.bounding_box ≠ []) (hboxes : boxes ≠ [])
    (hscan : scan_mobile_boxes r.bounding_box cfg.mobile_face_enclosure_ratio
      0 boxes = (true, ρ)) :
    process_after_penalty cfg st t boxes r =
      ({ st with
          last_event_time := setT r.person_id t st.last_event_time
          spoof_penalty_until :=
            setT r.person_id (t + cfg.spoof_penalty_duration) st.spoof_penalty_until },
       [Output.snapshot "spoofing" (some r.person_id),
        Output.event
          { person_id := some r.person_id
            name := some r.name
            confidence := some r.confidence
            embedding_distance := some r.embedding_distance
            spoofing_detected := true
            spoofing_type := some "mobile_display"
            spoofing_reason_overlap := some ρ }]) := by
  unfold process_after_penalty should_create_event
  simp [hcool, hscan, hbb, hboxes]

/-- Active spoof penalty: the person is skipped entirely — no event, no
snapshot, no attendance line, no state change. -/
theorem process_result_suppressed (cfg : ProcConfig) (st : ProcState)
    (t exp : ℚ) (boxes : List (ℤ × ℤ × ℤ × ℤ)) (r : IdentResult)
    (hpen : lookupT r.person_id st.spoof_penalty_until = some exp)
    (ht : t < exp) :
    process_result cfg st t boxes r = (st, []) := by
  unfold process_result
  rw [hpen]
  simp [ht]

/-- Expired spoof penalty: the entry is deleted and processing continues on
the cleaned state. -/
theorem process_result_expired (cfg : ProcConfig) (st : ProcState)
    (t exp : ℚ) (boxes : List (ℤ × ℤ × ℤ × ℤ)) (r : IdentResult)
    (hpen : lookupT r.person_id st.spoof_penalty_until = some exp)
    (ht : exp ≤ t) :
    process_result cfg st t boxes r =
      process_after_penalty cfg
        { st with spoof_penalty_until := removeT r.person_id st.spoof_penalty_until }
        t boxes r := by
  unfold process_result
  rw [hpen]
  simp [not_lt_of_le ht]

/-- No spoof penalty on record: processing continues on the state as is. -/
theorem process_result_no_penalty (cfg : ProcConfig) (st : ProcState)
    (t : ℚ) (boxes : List (ℤ × ℤ × ℤ × ℤ)) (r : IdentResult)
    (hpen : lookupT r.person_id st.spoof_penalty_until = none) :
    process_result cfg st t boxes r = process_after_penalty cfg st t boxes r := by
  unfold process_result
  rw [hpen]

theorem count_events_for_append (pid : String) (l1 l2 : List Output) :
    count_events_for pid (l1 ++ l2) =
      count_events_for pid l1 + count_events_for pid l2 := by
  simp [count_events_for, List.filter_append]

end Webcam

/-- Claim C1, counterexample: an identified person NOT under any spoof
penalty whose face box is fully enclosed (overlap 1 ≥ 0.85) by a detected
mobile-device box is nevertheless NOT penalized and NO spoofing event,
snapshot, or output of any kind is produced, because the person's event
cooldown has not elapsed (last event at t=100, frame at t=103, cooldown
5 s): `_should_create_event` is checked BEFORE the enclosure check and its
`False` branch skips the person outright. -/
theorem C1_spoof_enclosure_counterexample :
    FaceRec.lookupT "P1"
        (⟨[("P1", 100)], [], []⟩ : Webcam.ProcState).spoof_penalty_until = none ∧
      Webcam.scan_mobile_boxes [0, 0, 10, 10]
        Webcam.defaultConfig.mobile_face_enclosure_ratio 0 [(0, 0, 10, 10)] =
          (true, 1) ∧
      Webcam.process_result Webcam.defaultConfig ⟨[("P1", 100)], [], []⟩ 103
          [(0, 0, 10, 10)] ⟨"P1", "Alice", 95/100, 5/100, [0, 0, 10, 10]⟩ =
        (⟨[("P1", 100)], [], []⟩, []) := by
  refine ⟨rfl, ?_, ?_⟩
  · simp only [Webcam.scan_mobile_boxes, Webcam.face_inside_box,
      Webcam.defaultConfig]
    norm_num
  · rw [Webcam.process_result_no_penalty Webcam.defaultConfig
        ⟨[("P1", 100)], [], []⟩ 103 [(0, 0, 10, 10)]
        ⟨"P1", "Alice", 95/100, 5/100, [0, 0, 10, 10]⟩ rfl]
    exact Webcam.process_after_penalty_cooldown Webcam.defaultConfig
      ⟨[("P1", 100)], [], []⟩ 103 [(0, 0, 10, 10)]
      ⟨"P1", "Alice", 95/100, 5/100, [0, 0, 10, 10]⟩
      (by norm_num [FaceRec.lookupT, Webcam.defaultConfig])

/-- Claim C1, amended: for every identified person not under a spoof
penalty WHOSE EVENT COOLDOWN HAS ALSO ELAPSED (the cooldown gate
`_should_create_event` runs first and refreshes `last_event_time`), a face
box enclosed by a device box at or above the enclosure ratio sets the
spoof penalty to `t + spoof_penalty_duration`, saves a
"spoofing"-category snapshot, emits exactly one spoofing `DetectionEvent`
with `spoofing_detected=true`, `spoofing_type="mobile_display"` and the
overlap ratio in its reason, and emits no normal event, snapshot, or
attendance line for that person in that frame. -/
theorem C1_spoof_enclosure_spec (cfg : Webcam.ProcConfig)
    (st : Webcam.ProcState) (t ρ : ℚ) (boxes : List (ℤ × ℤ × ℤ × ℤ))
    (r : Webcam.IdentResult)
    (hpen : FaceRec.lookupT r.person_id st.spoof_penalty_until = none)
    (hcool : cfg.event_cooldown <
      t - (FaceRec.lookupT r.person_id st.last_event_time).getD 0)
    (hbb : r.bounding_box ≠ []) (hboxes : boxes ≠ [])
    (hscan : Webcam.scan_mobile_boxes r.bounding_box
      cfg.mobile_face_enclosure_ratio 0 boxes = (true, ρ)) :
    Webcam.process_result cfg st t boxes r =
      ({ st with
          last_event_time := FaceRec.setT r.person_id t st.last_event_time
          spoof_penalty_until :=
            FaceRec.setT r.person_id (t + cfg.spoof_penalty_duration)
              st.spoof_penalty_until },
       [Webcam.Output.snapshot "spoofing" (some r.person_id),
        Webcam.Output.event
          { person_id := some r.person_id
            name := some r.name
            confidence := some r.confidence
            embedding_distance := some r.embedding_distance
            spoofing_detected := true
            spoofing_type := some "mobile_display"
            spoofing_reason_overlap := some ρ }]) := by
  rw [Webcam.process_result_no_penalty _ _ _ _ _ hpen]
  exact Webcam.process_after_penalty_spoof cfg st t ρ boxes r hcool hbb hboxes hscan

/-- Claim C1 witness: person "P1" with last event at t=100, frame at t=200
(cooldown elapsed), face `[0,0,10,10]` fully inside the device box
`(0,0,10,10)`: the penalty is set to 1100 (= 200 + 900 s) and the spoofing
snapshot and event are the only outputs. -/
theorem C1_spoof_enclosure_spec_witness :
    Webcam.process_result Webcam.defaultConfig ⟨[("P1", 100)], [], []⟩ 200
        [(0, 0, 10, 10)] ⟨"P1", "Alice", 95/100, 5/100, [0, 0, 10, 10]⟩ =
      (⟨[("P1", 200)], [("P1", 1100)], []⟩,
       [Webcam.Output.snapshot "spoofing" (some "P1"),
        Webcam.Output.event
          { person_id := some "P1"
            name := some "Alice"
            confidence := some (95/100)
            embedding_distance := some (5/100)
            spoofing_detected := true
            spoofing_type := some "mobile_display"
            spoofing_reason_overlap := some 1 }]) := by
  rw [C1_spoof_enclosure_spec Webcam.defaultConfig ⟨[("P1", 100)], [], []⟩ 200 1
      [(0, 0, 10, 10)] ⟨"P1", "Alice", 95/100, 5/100, [0, 0, 10, 10]⟩
      rfl
      (by norm_num [FaceRec.lookupT, Webcam.defaultConfig])
      (by simp) (by simp)
      (by simp only [Webcam.scan_mobile_boxes, Webcam.face_inside_box,
            Webcam.defaultConfig]
          norm_num)]
  norm_num [FaceRec.setT, Webcam.defaultConfig]

/-- Claim C2: once a person is flagged (an entry in `spoof_penalty_until`),
every identification strictly inside the penalty window is suppressed
entirely — no event, no snapshot, no attendance line, no state change —
regardless of the cooldown state; and the first identification at or after
expiry deletes the penalty entry and, the penalty being longer than the
event cooldown and no device enclosing the face, emits exactly one normal
(non-spoofing) `DetectionEvent` again. -/
theorem C2_spoof_penalty_exclusivity (cfg : Webcam.ProcConfig)
    (st : Webcam.ProcState) (t exp t0 : ℚ)
    (boxes : List (ℤ × ℤ × ℤ × ℤ)) (r : Webcam.IdentResult)
    (hpen : FaceRec.lookupT r.person_id st.spoof_penalty_until = some exp) :
    (t < exp → Webcam.process_result cfg st t boxes r = (st, [])) ∧
      (exp ≤ t →
        FaceRec.lookupT r.person_id st.last_event_time = some t0 →
        exp = t0 + cfg.spoof_penalty_duration →
        cfg.event_cooldown < cfg.spoof_penalty_duration →
        (Webcam.scan_mobile_boxes r.bounding_box
          cfg.mobile_face_enclosure_ratio 0 boxes).1 = false →
        (Webcam.process_result cfg st t boxes r).1.spoof_penalty_until =
            FaceRec.removeT r.person_id st.spoof_penalty_until ∧
          Webcam.count_events_for r.person_id
              (Webcam.process_result cfg st t boxes r).2 = 1 ∧
          Webcam.count_spoof_events_for r.person_id
              (Webcam.process_result cfg st t boxes r).2 = 0) := by
  constructor
  · intro ht
    exact Webcam.process_result_suppressed cfg st t exp boxes r hpen ht
  · intro ht hlast hexp hcd hscan
    rw [Webcam.process_result_expired cfg st t exp boxes r hpen ht]
    have hcool : cfg.event_cooldown < t -
        (FaceRec.lookupT r.person_id
          ({ st with spoof_penalty_until :=
            FaceRec.removeT r.person_id st.spoof_penalty_until } :
              Webcam.ProcState).last_event_time).getD 0 := by
      show cfg.event_cooldown < t -
        (FaceRec.lookupT r.person_id st.last_event_time).getD 0
      rw [hlast]
      simp only [Option.getD_some]
      have : t0 + cfg.spoof_penalty_duration ≤ t := hexp ▸ ht
      linarith
    rw [Webcam.process_after_penalty_legit _ _ _ _ _ hcool hscan]
    obtain ⟨h1, h2, h3, h4⟩ := Webcam.emit_legitimate_spec cfg
      { st with
          spoof_penalty_until := FaceRec.removeT r.person_id st.spoof_penalty_until
          last_event_time := FaceRec.setT r.person_id t st.last_event_time } t r
    exact ⟨h2, h3, h4⟩

/-- Claim C2 witness: "P1" flagged until t=1000 (= 100 + 900 s); an
identification at t=500 is suppressed with nothing emitted and the state
untouched, while the first identification at t=1005 deletes the penalty
entry and emits exactly one normal event. -/
theorem C2_spoof_penalty_exclusivity_witness :
    Webcam.process_result Webcam.defaultConfig
        ⟨[("P1", 100)], [("P1", 1000)], []⟩ 500 []
        ⟨"P1", "Alice", 95/100, 5/100, [0, 0, 10, 10]⟩ =
      (⟨[("P1", 100)], [("P1", 1000)], []⟩, []) ∧
      ((Webcam.process_result Webcam.defaultConfig
          ⟨[("P1", 100)], [("P1", 1000)], []⟩ 1005 []
          ⟨"P1", "Alice", 95/100, 5/100, [0, 0, 10, 10]⟩).1.spoof_penalty_until =
          FaceRec.removeT "P1" [("P1", 1000)] ∧
        Webcam.count_events_for "P1"
            (Webcam.process_result Webcam.defaultConfig
              ⟨[("P1", 100)], [("P1", 1000)], []⟩ 1005 []
              ⟨"P1", "Alice", 95/100, 5/100, [0, 0, 10, 10]⟩).2 = 1 ∧
        Webcam.count_spoof_events_for "P1"
            (Webcam.process_result Webcam.defaultConfig
              ⟨[("P1", 100)], [("P1", 1000)], []⟩ 1005 []
              ⟨"P1", "Alice", 95/100, 5/100, [0, 0, 10, 10]⟩).2 = 0) :=
  ⟨(C2_spoof_penalty_exclusivity Webcam.defaultConfig
        ⟨[("P1", 100)], [("P1", 1000)], []⟩ 500 1000 100 []
        ⟨"P1", "Alice", 95/100, 5/100, [0, 0, 10, 10]⟩ rfl).1 (by norm_num),
    (C2_spoof_penalty_exclusivity Webcam.defaultConfig
        ⟨[("P1", 100)], [("P1", 1000)], []⟩ 1005 1000 100 []
        ⟨"P1", "Alice", 95/100, 5/100, [0, 0, 10, 10]⟩ rfl).2 (by norm_num) rfl
      (by norm_num [Webcam.defaultConfig]) (by norm_num [Webcam.defaultConfig]) rfl⟩

/-- Claim C3: with no spoof penalty and no device boxes in play, two
identifications of the same person within the event-cooldown window emit
exactly one `DetectionEvent` (the first), and a further identification
once the cooldown has elapsed since the last EMITTED event emits a
second one. -/
theorem C3_event_cooldown_idempotence (cfg : Webcam.ProcConfig)
    (st : Webcam.ProcState) (r : Webcam.IdentResult) (t1 t2 t3 : ℚ)
    (hpen : FaceRec.lookupT r.person_id st.spoof_penalty_until = none)
    (hlast : FaceRec.lookupT r.person_id st.last_event_time = none)
    (h1 : cfg.event_cooldown < t1)
    (h2 : t2 - t1 ≤ cfg.event_cooldown)
    (h3 : cfg.event_cooldown < t3 - t1) :
    Webcam.count_events_for r.person_id
        (Webcam.run_frames cfg st [(t1, [], [r]), (t2, [], [r])]).2 = 1 ∧
      Webcam.count_events_for r.person_id
        (Webcam.run_frames cfg st
          [(t1, [], [r]), (t2, [], [r]), (t3, [], [r])]).2 = 2 := by
  have hcool1 : cfg.event_cooldown < t1 -
      (FaceRec.lookupT r.person_id st.last_event_time).getD 0 := by
    rw [hlast]; simpa using h1
  have e1 : Webcam.process_result cfg st t1 [] r =
      Webcam.emit_legitimate cfg
        { st with last_event_time := FaceRec.setT r.person_id t1 st.last_event_time }
        t1 r := by
    rw [Webcam.process_result_no_penalty _ _ _ _ _ hpen]
    exact Webcam.process_after_penalty_legit _ _ _ _ _ hcool1 rfl
  obtain ⟨a1, a2, a3, a4⟩ := Webcam.emit_legitimate_spec cfg
    { st with last_event_time := FaceRec.setT r.person_id t1 st.last_event_time } t1 r
  set stA := (Webcam.emit_legitimate cfg
    { st with last_event_time := FaceRec.setT r.person_id t1 st.last_event_time }
    t1 r).1 with hstA
  have hpenA : FaceRec.lookupT r.person_id stA.spoof_penalty_until = none := by
    rw [hstA, a2]; exact hpen
  have hlastA : FaceRec.lookupT r.person_id stA.last_event_time = some t1 := by
    rw [hstA, a1]
    exact FaceRec.lookupT_setT_self r.person_id t1 st.last_event_time
  have e2 : Webcam.process_result cfg stA t2 [] r = (stA, []) := by
    rw [Webcam.process_result_no_penalty _ _ _ _ _ hpenA]
    apply Webcam.process_after_penalty_cooldown
    rw [hlastA]
    simpa using not_lt.mpr h2
  have hcool3 : cfg.event_cooldown < t3 -
      (FaceRec.lookupT r.person_id stA.last_event_time).getD 0 := by
    rw [hlastA]; simpa using h3
  have e3 : Webcam.process_result cfg stA t3 [] r =
      Webcam.emit_legitimate cfg
        { stA with last_event_time := FaceRec.setT r.person_id t3 stA.last_event_time }
        t3 r := by
    rw [Webcam.process_result_no_penalty _ _ _ _ _ hpenA]
    exact Webcam.process_after_penalty_legit _ _ _ _ _ hcool3 rfl
  obtain ⟨b1, b2, b3, b4⟩ := Webcam.emit_legitimate_spec cfg
    { stA with last_event_time := FaceRec.setT r.person_id t3 stA.last_event_time } t3 r
  constructor
  · simp only [Webcam.run_frames, Webcam.process_frame_results, e1, ← hstA, e2,
      List.append_nil, Webcam.count_events_for_append, a3]
  · simp only [Webcam.run_frames, Webcam.process_frame_results, e1, ← hstA, e2,
      e3, List.append_nil, Webcam.count_events_for_append, a3, b3]
    norm_num [Webcam.count_events_for]

/-- Claim C3 witness: the spec's end-to-end scenario at the source's
default 5 s cooldown — identifications at t=1000 and t=1003 (3 s apart)
emit one event; a further identification at t=1035 emits the second. -/
theorem C3_event_cooldown_idempotence_witness :
    Webcam.count_events_for "P1"
        (Webcam.run_frames Webcam.defaultConfig ⟨[], [], []⟩
          [(1000, [], [⟨"P1", "Bob", 9/10, 1/10, [0, 0, 10, 10]⟩]),
           (1003, [], [⟨"P1", "Bob", 9/10, 1/10, [0, 0, 10, 10]⟩])]).2 = 1 ∧
      Webcam.count_events_for "P1"
        (Webcam.run_frames Webcam.defaultConfig ⟨[], [], []⟩
          [(1000, [], [⟨"P1", "Bob", 9/10, 1/10, [0, 0, 10, 10]⟩]),
           (1003, [], [⟨"P1", "Bob", 9/10, 1/10, [0, 0, 10, 10]⟩]),
           (1035, [], [⟨"P1", "Bob", 9/10, 1/10, [0, 0, 10, 10]⟩])]).2 = 2 :=
  C3_event_cooldown_idempotence Webcam.defaultConfig ⟨[], [], []⟩
    ⟨"P1", "Bob", 9/10, 1/10, [0, 0, 10, 10]⟩ 1000 1003 1035 rfl rfl
    (by norm_num [Webcam.defaultConfig]) (by norm_num [Webcam.defaultConfig])
    (by norm_num [Webcam.defaultConfig])
